import Mathlib

/-!
Shallow embedding of the RDA streaming client (rdaclient.py and rdatools.py).

Sockets are modelled by the list of byte counts returned by successive recv
calls; a closed connection yields 0 bytes from every further call, modelled by
the exhausted (empty) list.  Decoded header and body fields are passed as
parameters, since byte-level decoding itself is not under scrutiny here.
Wall-clock timeouts are modelled by the number of loop iterations that fit in
the budget.  The modules rdadefs.py and ringbuffer.py are imported by the
sources but are not themselves part of them; every definition that depends on
them is modelled from the spec and says so in its doc comment.
-/

namespace RDA

/-- Modelled from the spec: message-type constant for Start frames from the
missing rdadefs.py (1 = Start, 3 = Stop, 4 = Data). -/
def RDA_START_MSG : Nat := 1

/-- Modelled from the spec: message-type constant for Stop frames. -/
def RDA_STOP_MSG : Nat := 3

/-- Modelled from the spec: message-type constant for Data (float) frames. -/
def RDA_FLOAT_MSG : Nat := 4

/-- Modelled from the spec: the known 16-byte signature constant
rdadefs.RDA_GUID.  Its exact value is not in the sources; only its length and
fixedness matter for the properties below. -/
def RDA_GUID : List Nat :=
  [142, 69, 88, 67, 150, 201, 134, 76, 175, 74, 152, 187, 246, 201, 20, 80]

/-- Message header rda_msg_hdr_t: the 16-byte guid, the total frame size in
bytes (header plus fixed plus variable body), and the message type. -/
structure Hdr where
  guid : List Nat
  nSize : Nat
  nType : Nat
  deriving Repr, DecidableEq

/-- Modelled from the spec: sizeof(rda_msg_hdr_t) = 16 (guid) + 4 (size) +
4 (type). -/
def hdrSize : Nat := 24

/-- Modelled from the spec: sizeof(rda_msg_start_t), the fixed portion of a
Start message: header + nChannels (int32) + dSamplingInterval (double). -/
def startFixedSize : Nat := hdrSize + 4 + 8

/-- Modelled from the spec: sizeof(rda_msg_data_t), the fixed portion of a
Data message: header + nBlock (int32) + nPoints (int32). -/
def dataFixedSize : Nat := hdrSize + 4 + 4

/-- Embeds rdatools.validate_rda_guid (lines 187-189): byte-wise comparison of
zip(hdr.guid, RDA_GUID); False at the first mismatching pair, True otherwise. -/
def validate_rda_guid (hdr : Hdr) : Bool :=
  (hdr.guid.zip RDA_GUID).all fun p => p.1 == p.2

/-- Embeds the accumulating receive loops of rdatools.rda_read_start_msg
(lines 56-61) and rda_read_data_msg (lines 107-111): while n < varLength,
issue another recv and add the returned byte count to n.  The stream is the
list of counts returned by successive recv calls; once it is exhausted, the
connection is closed and every further recv returns 0.  fuel bounds the number
of iterations so the function is total; none means the loop is still running
when the budget runs out. -/
def recvLoop (fuel varLength n : Nat) (s : List Nat) : Option Nat :=
  if n < varLength then
    match fuel, s with
    | 0, _ => none
    | Nat.succ f, [] => recvLoop f varLength n []
    | Nat.succ f, k :: rest => recvLoop f varLength (n + k) rest
  else
    some n

/-- Fully assembled Start message (rda_msg_start_full_t) with the computed
variable-region bookkeeping. -/
structure StartMsgFull where
  hdr : Hdr
  nChannels : Nat
  stringLength : Int
  deriving Repr, DecidableEq

/-- Embeds rdatools.rda_read_start_msg: read the fixed portion after the
header in a single recv of exactly sizeof(msg_fixed) - sizeof(hdr) bytes
(anything else makes check_received raise, modelled as none); compute the
channel-name string-region length (line 47) and the variable-region length;
then run the accumulating receive loop over the rest of the stream.  A
negative region length makes the ctypes array construction raise, modelled as
none.  nChannels stands for the value decoded from the received fixed
portion. -/
def rda_read_start_msg (hdr : Hdr) (nChannels : Nat) (fuel : Nat) (s : List Nat) :
    Option StartMsgFull :=
  match s with
  | [] => none
  | k :: rest =>
    if k = startFixedSize - hdrSize then
      let stringLength : Int :=
        (hdr.nSize : Int) - (startFixedSize : Int) - (nChannels : Int) * 8
      let varLength : Int := (hdr.nSize : Int) - (startFixedSize : Int)
      if 0 ≤ stringLength ∧ 0 ≤ varLength then
        match recvLoop fuel varLength.toNat 0 rest with
        | none => none
        | some _ => some ⟨hdr, nChannels, stringLength⟩
      else none
    else none

/-- Fully assembled Data message (rda_msg_data_full_t) with the computed
variable-region bookkeeping. -/
structure DataMsgFull where
  hdr : Hdr
  nPoints : Nat
  markersLength : Int
  deriving Repr, DecidableEq

/-- Embeds rdatools.rda_read_data_msg: read the fixed portion after the header
in a single recv of exactly sizeof(msg_fixed) - sizeof(hdr) bytes; compute the
markers-region length (line 98) and the variable-region length; then run the
accumulating receive loop over the rest of the stream.  nChannels is supplied
by the caller (from the cached start message); nPoints stands for the value
decoded from the received fixed portion. -/
def rda_read_data_msg (hdr : Hdr) (nChannels nPoints : Nat) (fuel : Nat) (s : List Nat) :
    Option DataMsgFull :=
  match s with
  | [] => none
  | k :: rest =>
    if k = dataFixedSize - hdrSize then
      let markersLength : Int :=
        (hdr.nSize : Int) - (dataFixedSize : Int) -
          (nChannels : Int) * (nPoints : Int) * 4
      let varLength : Int := (hdr.nSize : Int) - (dataFixedSize : Int)
      if 0 ≤ markersLength ∧ 0 ≤ varLength then
        match recvLoop fuel varLength.toNat 0 rest with
        | none => none
        | some _ => some ⟨hdr, nPoints, markersLength⟩
      else none
    else none

/-- Modelled from the spec: the reader-visible state of ringbuffer.RingBuffer
(the module is not in the sources): whether the backing store has been set up,
the channel count, the capacity in samples, and the monotonic total of samples
ever written (nSamplesWritten). -/
structure RingBuffer where
  inited : Bool
  nChannels : Nat
  capacity : Nat
  nSamplesWritten : Nat
  deriving Repr, DecidableEq

/-- Modelled from the spec: the ringbuffer.BufferError failure conditions of a
range read. -/
inductive BufErr
  | notInited
  | notYetAvailable
  | retired
  deriving Repr, DecidableEq

/-- Modelled from the spec: the numeric code carried by ringbuffer.BufferError.
Section 9 of the design and the source comment at rdaclient.py line 246
identify code 3 as the data-overwritten (retired) condition; the remaining
codes matter only in being different from 3. -/
def bufErrCode : BufErr → Nat
  | .notInited => 1
  | .notYetAvailable => 2
  | .retired => 3

/-- Modelled from the spec: ringbuffer get(start, end): NotInitialized when
the buffer was never set up, NotYetAvailable when end exceeds the total
written, Retired when start falls at or below total written minus capacity,
otherwise the requested range (the returned view is represented by the range
itself). -/
def rb_get_data (b : RingBuffer) (s e : Int) : Except BufErr (Int × Int) :=
  if b.inited = false then .error .notInited
  else if (b.nSamplesWritten : Int) < e then .error .notYetAvailable
  else if s ≤ (b.nSamplesWritten : Int) - (b.capacity : Int) then .error .retired
  else .ok (s, e)

/-- Modelled from the spec: ringbuffer setup with a given channel count and
capacity, nothing written yet. -/
def rb_setup (nChannels capacity : Nat) : RingBuffer :=
  { inited := true, nChannels := nChannels, capacity := capacity,
    nSamplesWritten := 0 }

/-- Embeds the polling loop of Client.wait (rdaclient.py lines 242-252): try
get_data; on success return the data; on a BufferError whose code is not 3,
return None at once; on code 3 sleep and retry while the timeout allows.  The
list holds the ring-buffer states seen by the successive attempts that fit in
the timeout (the shared buffer may grow between polls); the exhausted list is
the expired timeout.  The result carries the number of attempts the loop
made, the observable polling effort. -/
def waitLoop : List RingBuffer → Int → Int → Option (Int × Int) × Nat
  | [], _, _ => (none, 0)
  | b :: rest, s, e =>
    match rb_get_data b s e with
    | .ok d => (some d, 1)
    | .error err =>
      if bufErrCode err ≠ 3 then (none, 1)
      else
        let r := waitLoop rest s e
        (r.1, r.2 + 1)

/-- Session-level errors raised by the Client facade. -/
inductive SessionErr
  | notStreaming
  | alreadyStreaming
  deriving Repr, DecidableEq

/-- Cached session metadata from a Start message. -/
structure StartMsg where
  nChannels : Nat
  deriving Repr, DecidableEq

/-- Embeds the Client facade state (rdaclient.py Client.__init__): the spawned
Streamer handle when one exists (carrying whether the process is alive), the
cached start message, the ring buffer, the configured capacity, and the
control queue. -/
structure Client where
  streamer : Option Bool
  start_msg : Option StartMsg
  buf : RingBuffer
  buffer_size : Nat
  q : List String
  deriving Repr, DecidableEq

/-- Embeds Client.__get_is_streaming (rdaclient.py lines 65-69): return
self.__streamer.is_alive(), with any exception - in particular the
AttributeError raised when streamer is still None - caught and turned into
False. -/
def is_streaming (c : Client) : Bool :=
  match c.streamer with
  | none => false
  | some alive => alive

/-- Embeds Client.__init__ with its default arguments: no streamer spawned
yet, no cached start message, a buffer that was never set up, an empty control
queue. -/
def freshClient : Client :=
  { streamer := none, start_msg := none,
    buf := { inited := false, nChannels := 0, capacity := 0, nSamplesWritten := 0 },
    buffer_size := 300000, q := [] }

/-- Embeds Client.wait (rdaclient.py lines 236-252): raise unless streaming,
otherwise run the polling loop over the attempt trace. -/
def client_wait (c : Client) (bufs : List RingBuffer) (s e : Int) :
    Except SessionErr (Option (Int × Int) × Nat) :=
  if is_streaming c = false then .error .notStreaming
  else .ok (waitLoop bufs s e)

/-- Embeds Client.get_data (rdaclient.py lines 202-205): delegate to the
buffer and swallow every failure into None. -/
def client_get_data (b : RingBuffer) (s e : Int) : Option (Int × Int) :=
  match rb_get_data b s e with
  | .ok d => some d
  | .error _ => none

/-- Embeds Client.poll (rdaclient.py lines 277-285): raise unless streaming;
read the high-water mark ls from the call-time buffer state b0; wait for the
sample range (ls, ls+1) over the attempt trace bufs; when the wait returns
data, re-read the mark from the state the successful attempt saw and return
get_data over the window ending there; otherwise None.  The attempt count of
the inner wait is passed through. -/
def client_poll (c : Client) (b0 : RingBuffer) (bufs : List RingBuffer)
    (nSamples : Nat) : Except SessionErr (Option (Int × Int) × Nat) :=
  if is_streaming c = false then .error .notStreaming
  else
    let ls : Int := b0.nSamplesWritten
    let r := waitLoop bufs ls (ls + 1)
    match r.1 with
    | none => .ok (none, r.2)
    | some _ =>
      let b1 := bufs.getD (r.2 - 1) b0
      let ls1 : Int := b1.nSamplesWritten
      .ok (client_get_data b1 (ls1 - (nSamples : Int)) ls1, r.2)

/-- Embeds Client.stop_streaming (rdaclient.py lines 166-174): raise unless
streaming; enqueue stop and then, when the flag is set, save_timelog. -/
def client_stop_streaming (c : Client) (write_timelog : Bool) :
    Except SessionErr (List String) :=
  if is_streaming c = false then .error .notStreaming
  else .ok (c.q ++ ["stop"] ++ (if write_timelog then ["save_timelog"] else []))

/-- One decoded frame as the handshake loop and the streaming worker see it:
its header plus the body fields a dispatch may use (the channel count for
Start frames, the point count for Data frames). -/
structure Frame where
  hdr : Hdr
  nChannels : Nat
  nPoints : Nat
  deriving Repr, DecidableEq

/-- Result of the header loop inside Client.start_streaming. -/
inductive Handshake
  | gotStart (m : StartMsg)
  | resumed
  | timedOut
  deriving Repr, DecidableEq

/-- Embeds the header loop of Client.start_streaming (rdaclient.py lines
120-139): for each header arriving inside the timeout, break on a Start
message, break (resume) on a Data message when a start message is already
cached, otherwise discard the body and keep looping; running out of frames is
the timeout expiring with nothing accepted. -/
def handshakeLoop (cached : Option StartMsg) : List Frame → Handshake
  | [] => .timedOut
  | f :: rest =>
    if f.hdr.nType = RDA_START_MSG then .gotStart ⟨f.nChannels⟩
    else if f.hdr.nType = RDA_FLOAT_MSG ∧ cached.isSome then .resumed
    else handshakeLoop cached rest

/-- Outcome of Client.start_streaming: the AlreadyStreaming error, the
AttributeError raised by dereferencing the absent start message during buffer
setup, or a spawned worker. -/
inductive StartOutcome
  | errAlreadyStreaming
  | errNoneType
  | spawned
  deriving Repr, DecidableEq

/-- Embeds Client.start_streaming (rdaclient.py lines 110-153): raise while
already streaming; run the header loop; then - with no guard on how the loop
ended - set up the buffer when it is not set up yet, dereferencing the cached
start message (an AttributeError on None when there is none), and spawn the
Streamer process.  Returns the outcome together with the resulting client
state. -/
def client_start_streaming (c : Client) (frames : List Frame) :
    StartOutcome × Client :=
  if is_streaming c = true then (.errAlreadyStreaming, c)
  else
    let c1 :=
      match handshakeLoop c.start_msg frames with
      | .gotStart m => { c with start_msg := some m }
      | _ => c
    if c1.buf.inited = false then
      match c1.start_msg with
      | none => (.errNoneType, c1)
      | some m =>
        (.spawned, { c1 with buf := rb_setup m.nChannels c1.buffer_size,
                             streamer := some true })
    else (.spawned, { c1 with streamer := some true })

/-- Events observable from the worker actions, used to state ordering
properties about the streaming loop. -/
inductive Ev
  | warnGuid
  | putBlock (nPoints : Nat)
  | skipWeird
  | enqueuedStop
  | skipOther (nType : Nat)
  | loopExit
  | execSave
  deriving Repr, DecidableEq

/-- Embeds the Streamer-side state (rdaclient.py Streamer.__init__ and run):
the bounded timelog deque, the writer view of the buffer (total samples
written), the control queue, a logical clock supplying the time.time values,
and how many times the timelog has been saved. -/
structure WState where
  timelog : List Nat
  written : Nat
  q : List String
  clock : Nat
  saves : Nat
  deriving Repr, DecidableEq

/-- Embeds append on a collections.deque of capacity m (rdaclient.py line 313
creates the timelog with capacity 100000): the new element goes to the back
and, when the deque is full, the oldest front element is discarded. -/
def dequeAppend (m : Nat) (log : List Nat) (t : Nat) : List Nat :=
  if log.length < m then log ++ [t]
  else (log ++ [t]).drop (log.length + 1 - m)

/-- Embeds Streamer.__put_datablock (rdaclient.py lines 382-387): reshape the
block into (points, channels) rows, append it to the ring buffer, and append
the current wall-clock time to the timelog. -/
def put_datablock (st : WState) (nPoints : Nat) : WState :=
  { st with written := st.written + nPoints,
            timelog := dequeAppend 100000 st.timelog st.clock,
            clock := st.clock + 1 }

/-- Embeds Streamer.__get_cmd (rdaclient.py lines 398-402): non-blocking
dequeue from the control queue, None when it is empty. -/
def getCmd (q : List String) : Option String × List String :=
  match q with
  | [] => (none, [])
  | c :: rest => (some c, rest)

/-- Embeds Streamer.__execute_cmd together with the command table self.cmds
(rdaclient.py lines 317 and 414-418): save_timelog is the only known command;
anything else, None included, is ignored. -/
def execute_cmd (st : WState) (cmd : Option String) : WState × List Ev :=
  if cmd = some "save_timelog" then
    ({ st with saves := st.saves + 1 }, [Ev.execSave])
  else (st, [])

/-- Embeds one iteration body of the Streamer.run receive loop (rdaclient.py
lines 339-361): read one header and validate it (a guid mismatch only logs a
warning), then dispatch on the type: Data frames are decoded and written to
the buffer, the undocumented type 10000 is skipped, a Stop frame enqueues a
stop command to the worker itself, and anything else is skipped with a log
line. -/
def workerIter (st : WState) (f : Frame) : WState × List Ev :=
  let warn := if validate_rda_guid f.hdr = true then [] else [Ev.warnGuid]
  let b :=
    if f.hdr.nType = RDA_FLOAT_MSG then
      (put_datablock st f.nPoints, [Ev.putBlock f.nPoints])
    else if f.hdr.nType = 10000 then
      (st, [Ev.skipWeird])
    else if f.hdr.nType = RDA_STOP_MSG then
      ({ st with q := st.q ++ ["stop"] }, [Ev.enqueuedStop])
    else
      (st, [Ev.skipOther f.hdr.nType])
  (b.1, warn ++ b.2)

/-- How a run of the worker loop ended: a stop command was dequeued, the
socket failed (check_received raising on a short header read, modelled by the
frame list running out while the loop still wants input), or the iteration
budget ran out. -/
inductive RunExit
  | stopped
  | ioError
  | fuelOut
  deriving Repr, DecidableEq

/-- Embeds Streamer.run from the loop head on (rdaclient.py lines 338-369):
while the dequeued command is not stop, process one frame and dequeue the next
command; once stop is seen, leave the loop, then dequeue and execute exactly
one more command.  cmd is the command dequeued before the loop test. -/
def runFrom (fuel : Nat) (st : WState) (frames : List Frame)
    (cmd : Option String) : WState × List Ev × RunExit :=
  if cmd = some "stop" then
    let g := getCmd st.q
    let r := execute_cmd { st with q := g.2 } g.1
    (r.1, Ev.loopExit :: r.2, .stopped)
  else
    match fuel with
    | 0 => (st, [], .fuelOut)
    | Nat.succ f =>
      match frames with
      | [] => (st, [], .ioError)
      | fr :: rest =>
        let w := workerIter st fr
        let g := getCmd w.1.q
        let r := runFrom f { w.1 with q := g.2 } rest g.1
        (r.1, w.2 ++ r.2.1, r.2.2)

/-- Embeds the entry of Streamer.run (rdaclient.py line 326 onward): dequeue
the first command, then enter the loop. -/
def streamerRun (fuel : Nat) (st : WState) (frames : List Frame) :
    WState × List Ev × RunExit :=
  let g := getCmd st.q
  runFrom fuel { st with q := g.2 } frames g.1

/-- Client state during an active session: the worker is alive, session
metadata cached, buffer set up. -/
def streamingClient : Client :=
  { streamer := some true, start_msg := some ⟨4⟩,
    buf := rb_setup 4 300000, buffer_size := 300000, q := [] }

/-- Client state after a session was stopped: the worker is no longer alive,
while the start message and the filled buffer remain cached. -/
def stoppedClient : Client :=
  { streamer := some false, start_msg := some ⟨4⟩,
    buf := { inited := true, nChannels := 4, capacity := 300000,
             nSamplesWritten := 5000 },
    buffer_size := 300000, q := [] }

/-- Buffer state while streaming in which the next sample past the high-water
mark has not been written yet. -/
def bufAwaiting : RingBuffer :=
  { inited := true, nChannels := 4, capacity := 1000, nSamplesWritten := 5 }

/-- Buffer state whose early samples have been retired by overwrite. -/
def bufOverwritten : RingBuffer :=
  { inited := true, nChannels := 4, capacity := 10, nSamplesWritten := 1000 }

/-- C3: calling start_streaming while the client is already in the Streaming
state fails with the AlreadyStreaming error before anything is mutated, so the
client state is returned unchanged. -/
theorem start_streaming_already_streaming (c : Client) (frames : List Frame)
    (h : is_streaming c = true) :
    client_start_streaming c frames = (.errAlreadyStreaming, c) := by
  unfold client_start_streaming
  simp [h]

/-- Witness for C3 at a concrete streaming client. -/
theorem start_streaming_already_streaming_witness :
    is_streaming streamingClient = true ∧
    client_start_streaming streamingClient [] =
      (.errAlreadyStreaming, streamingClient) :=
  ⟨rfl, start_streaming_already_streaming streamingClient [] rfl⟩

/-- C2: when the handshake timeout elapses with no Start message and no
resume, start_streaming does not fail with a handshake-timeout error: it falls
through the loop; on a fresh client it proceeds into buffer setup and dies
dereferencing the absent start message (an AttributeError on None), and on a
client with a cached previous session it silently spawns the worker with no
handshake at all. -/
theorem start_streaming_timeout_falls_through :
    (client_start_streaming freshClient []).1 = .errNoneType ∧
    (client_start_streaming stoppedClient []).1 = .spawned := by
  constructor <;> rfl

/-- C1: the wait polling policy is inverted with respect to the claim: a
NotYetAvailable failure ends the loop on the very first attempt no matter how
many attempts of the timeout remain (waiting for data that is about to arrive
never retries), while a Retired failure keeps polling through every attempt
the timeout allows instead of aborting immediately. -/
theorem wait_policy_inverted :
    (∀ rest : List RingBuffer,
      rb_get_data bufAwaiting 5 6 = .error .notYetAvailable ∧
      waitLoop (bufAwaiting :: rest) 5 6 = (none, 1)) ∧
    (∀ k : Nat,
      rb_get_data bufOverwritten 0 5 = .error .retired ∧
      waitLoop (List.replicate k bufOverwritten) 0 5 = (none, k)) := by
  constructor
  · intro rest
    exact ⟨rfl, rfl⟩
  · intro k
    refine ⟨rfl, ?_⟩
    induction k with
    | zero => rfl
    | succ n ih =>
      have h : waitLoop (List.replicate (n + 1) bufOverwritten) 0 5 =
          ((waitLoop (List.replicate n bufOverwritten) 0 5).1,
           (waitLoop (List.replicate n bufOverwritten) 0 5).2 + 1) := rfl
      rw [h, ih]

/-- C7: poll never waits for the next sample to be produced: its inner
wait(ls, ls+1) immediately hits NotYetAvailable, which the wait loop treats as
fatal, so poll reports unavailability after a single attempt regardless of the
data arriving during the remaining timeout. -/
theorem poll_returns_none_immediately :
    ∀ (rest : List RingBuffer) (nSamples : Nat),
      client_poll streamingClient bufAwaiting (bufAwaiting :: rest) nSamples =
        .ok (none, 1) := by
  intro rest nSamples
  rfl

/-- Header of total frame size 100 with a valid signature and the given
message type. -/
def hdr100 (t : Nat) : Hdr :=
  { guid := RDA_GUID, nSize := 100, nType := t }

/-- On the closed stream, where every further recv returns 0 bytes, the
accumulating loop makes no progress: with part of the region outstanding it is
still running whatever the iteration budget. -/
theorem recvLoop_closed (vL : Nat) :
    ∀ (fuel n : Nat), n < vL → recvLoop fuel vL n [] = none := by
  intro fuel
  induction fuel with
  | zero =>
    intro n h
    unfold recvLoop
    simp [h]
  | succ f ih =>
    intro n h
    unfold recvLoop
    simp only [if_pos h]
    exact ih n h

/-- C4: when the stream closes (every further recv returns 0 bytes) with part
of the variable region outstanding, the accumulating-read loop never
terminates - for every iteration budget it is still looping - so neither
rda_read_start_msg nor rda_read_data_msg ever completes or fails with a
protocol error; the code loops forever instead of failing with Truncated. -/
theorem recv_loop_never_terminates :
    (∀ fuel : Nat, recvLoop fuel 1 0 [] = none) ∧
    (∀ fuel : Nat,
      rda_read_start_msg (hdr100 RDA_START_MSG) 2 fuel [12] = none) ∧
    (∀ fuel : Nat,
      rda_read_data_msg (hdr100 RDA_FLOAT_MSG) 2 1 fuel [8] = none) := by
  refine ⟨fun fuel => recvLoop_closed 1 fuel 0 (by norm_num), ?_, ?_⟩
  · intro fuel
    have h : rda_read_start_msg (hdr100 RDA_START_MSG) 2 fuel [12] =
        (match recvLoop fuel 64 0 [] with
         | none => none
         | some _ => some (⟨hdr100 RDA_START_MSG, 2, 48⟩ : StartMsgFull)) := rfl
    rw [h, recvLoop_closed 64 fuel 0 (by norm_num)]
  · intro fuel
    have h : rda_read_data_msg (hdr100 RDA_FLOAT_MSG) 2 1 fuel [8] =
        (match recvLoop fuel 68 0 [] with
         | none => none
         | some _ => some (⟨hdr100 RDA_FLOAT_MSG, 1, 60⟩ : DataMsgFull)) := rfl
    rw [h, recvLoop_closed 68 fuel 0 (by norm_num)]

/-- C5: whenever the codec completes a Start or a Data read, the computed
channel-name string-region length is exactly nSize minus the fixed-portion
size minus nChannels times 8 bytes, and the markers-region length is exactly
nSize minus the fixed-portion size minus nChannels times nPoints times 4
bytes. -/
theorem codec_region_lengths (hdr : Hdr) (c p fuel : Nat) (s : List Nat) :
    (∀ m : StartMsgFull, rda_read_start_msg hdr c fuel s = some m →
      m.stringLength = (hdr.nSize : Int) - (startFixedSize : Int) - c * 8) ∧
    (∀ m : DataMsgFull, rda_read_data_msg hdr c p fuel s = some m →
      m.markersLength =
        (hdr.nSize : Int) - (dataFixedSize : Int) - c * p * 4) := by
  constructor
  · intro m h
    unfold rda_read_start_msg at h
    rcases s with _ | ⟨k, rest⟩
    · exact absurd h (by simp)
    · simp only at h
      split at h
      · split at h
        · rcases hr : recvLoop fuel ((hdr.nSize : Int) - (startFixedSize : Int)).toNat 0 rest with _ | n
          · rw [hr] at h; exact absurd h (by simp)
          · rw [hr] at h
            simp only [Option.some.injEq] at h
            rw [← h]
        · exact absurd h (by simp)
      · exact absurd h (by simp)
  · intro m h
    unfold rda_read_data_msg at h
    rcases s with _ | ⟨k, rest⟩
    · exact absurd h (by simp)
    · simp only at h
      split at h
      · split at h
        · rcases hr : recvLoop fuel ((hdr.nSize : Int) - (dataFixedSize : Int)).toNat 0 rest with _ | n
          · rw [hr] at h; exact absurd h (by simp)
          · rw [hr] at h
            simp only [Option.some.injEq] at h
            rw [← h]
        · exact absurd h (by simp)
      · exact absurd h (by simp)

/-- Witness for C5: a Start read of a 100-byte frame with 2 channels
completing in one loop iteration yields string length 48 = 100 - 36 - 16, and
a Data read with 2 channels and 1 point yields markers length 60 =
100 - 32 - 8. -/
theorem codec_region_lengths_witness :
    (⟨hdr100 RDA_START_MSG, 2, 48⟩ : StartMsgFull).stringLength =
        ((hdr100 RDA_START_MSG).nSize : Int) - (startFixedSize : Int) - 2 * 8 ∧
    (⟨hdr100 RDA_FLOAT_MSG, 1, 60⟩ : DataMsgFull).markersLength =
        ((hdr100 RDA_FLOAT_MSG).nSize : Int) - (dataFixedSize : Int) - 2 * 1 * 4 :=
  ⟨(codec_region_lengths (hdr100 RDA_START_MSG) 2 1 1 [12, 64]).1
      ⟨hdr100 RDA_START_MSG, 2, 48⟩ rfl,
   (codec_region_lengths (hdr100 RDA_FLOAT_MSG) 2 1 1 [8, 68]).2
      ⟨hdr100 RDA_FLOAT_MSG, 1, 60⟩ rfl⟩

/-- C9: reading is_streaming is total and, on a freshly constructed client
where no worker object exists, returns false, so stop_streaming, wait and poll
all fail with the not-streaming error in that state. -/
theorem fresh_client_not_streaming :
    is_streaming freshClient = false ∧
    (∀ wt : Bool, client_stop_streaming freshClient wt = .error .notStreaming) ∧
    (∀ (bufs : List RingBuffer) (s e : Int),
      client_wait freshClient bufs s e = .error .notStreaming) ∧
    (∀ (b0 : RingBuffer) (bufs : List RingBuffer) (n : Nat),
      client_poll freshClient b0 bufs n = .error .notStreaming) :=
  ⟨rfl, fun _ => rfl, fun _ _ _ => rfl, fun _ _ _ => rfl⟩

/-- Byte-wise zip comparison of two equally long lists succeeds exactly on
equal lists. -/
theorem zip_all_beq_iff : ∀ (a b : List Nat), a.length = b.length →
    (((a.zip b).all fun p => p.1 == p.2) = true ↔ a = b) := by
  intro a
  induction a with
  | nil =>
    intro b h
    cases b with
    | nil => simp
    | cons y ys => simp at h
  | cons x xs ih =>
    intro b h
    cases b with
    | nil => simp at h
    | cons y ys =>
      have hl : xs.length = ys.length := by simpa using h
      simp only [List.zip_cons_cons, List.all_cons, Bool.and_eq_true, beq_iff_eq,
        List.cons.injEq]
      rw [ih ys hl]

/-- A frame with the same header fields apart from the guid. -/
def setGuid (f : Frame) (g : List Nat) : Frame :=
  { f with hdr := { f.hdr with guid := g } }

/-- C6: signature validation compares byte-wise against the 16-byte constant
and returns true exactly when all bytes match, false (never an exception)
otherwise; and both callers only log on a mismatch: the streaming worker's
dispatch reaches the same state and the same non-warning events whatever the
guid, and the handshake loop resolves identically whatever the guids of the
frames it sees. -/
theorem guid_validation :
    (∀ hdr : Hdr, hdr.guid.length = 16 →
      (validate_rda_guid hdr = true ↔ hdr.guid = RDA_GUID)) ∧
    (∀ (st : WState) (f : Frame) (g : List Nat),
      (workerIter st (setGuid f g)).1 = (workerIter st f).1 ∧
      ((workerIter st (setGuid f g)).2.filter fun e => e != Ev.warnGuid) =
        ((workerIter st f).2.filter fun e => e != Ev.warnGuid)) ∧
    (∀ (cached : Option StartMsg) (frames : List Frame) (g : List Nat),
      handshakeLoop cached (frames.map fun f => setGuid f g) =
        handshakeLoop cached frames) := by
  refine ⟨?_, ?_, ?_⟩
  · intro hdr h
    unfold validate_rda_guid
    exact zip_all_beq_iff hdr.guid RDA_GUID (by rw [h]; rfl)
  · intro st f g
    have hwarn : ∀ h : Hdr,
        ((if validate_rda_guid h = true then ([] : List Ev) else [Ev.warnGuid]).filter
          fun e => e != Ev.warnGuid) = [] := by
      intro h
      split <;> rfl
    constructor
    · rfl
    · show ((if validate_rda_guid (setGuid f g).hdr = true then ([] : List Ev)
              else [Ev.warnGuid]) ++ _).filter (fun e => e != Ev.warnGuid) =
            ((if validate_rda_guid f.hdr = true then ([] : List Ev)
              else [Ev.warnGuid]) ++ _).filter (fun e => e != Ev.warnGuid)
      rw [List.filter_append, List.filter_append, hwarn, hwarn]
      simp [setGuid]
  · intro cached frames g
    induction frames with
    | nil => rfl
    | cons f rest ih =>
      simp only [List.map_cons]
      show (if f.hdr.nType = RDA_START_MSG then Handshake.gotStart ⟨f.nChannels⟩
            else if f.hdr.nType = RDA_FLOAT_MSG ∧ cached.isSome then .resumed
            else handshakeLoop cached (rest.map fun f => setGuid f g)) =
           handshakeLoop cached (f :: rest)
      rw [ih]
      rfl

/-- Witness for C6 at the valid-signature header. -/
theorem guid_validation_witness :
    validate_rda_guid (hdr100 RDA_START_MSG) = true ↔
      (hdr100 RDA_START_MSG).guid = RDA_GUID :=
  guid_validation.1 (hdr100 RDA_START_MSG) rfl

/-- A well-formed Data frame carrying the given number of sample points. -/
def dataFrame (nPoints : Nat) : Frame :=
  { hdr := hdr100 RDA_FLOAT_MSG, nChannels := 4, nPoints := nPoints }

/-- C8: the diagnostic timestamp log is a bounded FIFO: an append never grows
it beyond 100000 entries; the appended timestamp goes to the back while the
front (oldest) entries beyond the capacity - none when there is room, the
single oldest one when the deque is full - are evicted; and processing one
received data block appends exactly one wall-clock timestamp. -/
theorem timelog_bounded_fifo :
    (∀ (log : List Nat) (t : Nat),
      (dequeAppend 100000 log t).length = min (log.length + 1) 100000) ∧
    (∀ (log : List Nat) (t : Nat),
      dequeAppend 100000 log t = log.drop (log.length + 1 - 100000) ++ [t]) ∧
    (∀ (st : WState) (np : Nat),
      (workerIter st (dataFrame np)).1.timelog =
        dequeAppend 100000 st.timelog st.clock) := by
  refine ⟨?_, ?_, ?_⟩
  · intro log t
    unfold dequeAppend
    split
    · simp only [List.length_append, List.length_cons, List.length_nil]
      omega
    · simp only [List.length_drop, List.length_append, List.length_cons,
        List.length_nil]
      omega
  · intro log t
    unfold dequeAppend
    split
    · rw [Nat.sub_eq_zero_of_le (by omega), List.drop_zero]
    · rw [List.drop_append_of_le_length (by omega)]
  · intro st np
    have hb : workerIter st (dataFrame np) =
        (put_datablock st np, [Ev.putBlock np]) := rfl
    rw [hb]
    simp [put_datablock]

/-- Processing a frame that is not a Stop message leaves the control queue and
the save counter untouched, and its events contain neither a loop exit nor a
timelog save. -/
theorem workerIter_no_stop (st : WState) (f : Frame)
    (h : f.hdr.nType ≠ RDA_STOP_MSG) :
    (workerIter st f).1.q = st.q ∧ (workerIter st f).1.saves = st.saves ∧
    Ev.loopExit ∉ (workerIter st f).2 ∧ Ev.execSave ∉ (workerIter st f).2 := by
  unfold workerIter
  simp only [RDA_FLOAT_MSG, RDA_STOP_MSG] at h ⊢
  by_cases h0 : validate_rda_guid f.hdr = true <;>
    by_cases h1 : f.hdr.nType = 4 <;>
      by_cases h2 : f.hdr.nType = 10000 <;>
        simp [h0, h1, h2, h, put_datablock]

/-- Worker run whose control queue holds a block of non-stop commands followed
by stop and save_timelog: the loop exits on dequeuing stop and the single
post-loop command executes the save exactly once, after the loop exit. -/
theorem runAux (cs : List String) :
    ∀ (frames : List Frame) (st : WState) (fuel : Nat),
      "stop" ∉ cs →
      st.q = cs ++ ["stop", "save_timelog"] →
      (∀ f ∈ frames, f.hdr.nType ≠ RDA_STOP_MSG) →
      cs.length ≤ frames.length →
      cs.length ≤ fuel →
      (streamerRun fuel st frames).2.2 = RunExit.stopped ∧
      (streamerRun fuel st frames).1.saves = st.saves + 1 ∧
      ∃ pre, (streamerRun fuel st frames).2.1 = pre ++ [Ev.loopExit, Ev.execSave] ∧
        Ev.loopExit ∉ pre ∧ Ev.execSave ∉ pre := by
  induction cs with
  | nil =>
    intro frames st fuel hstop hq hfr hlen hfuel
    have e1 : streamerRun fuel st frames =
        ({ st with q := [], saves := st.saves + 1 },
         [Ev.loopExit, Ev.execSave], RunExit.stopped) := by
      unfold streamerRun runFrom
      rw [hq]
      simp [getCmd, execute_cmd]
    rw [e1]
    exact ⟨rfl, rfl, [], rfl, by simp, by simp⟩
  | cons c cs ih =>
    intro frames st fuel hstop hq hfr hlen hfuel
    have hc : ¬ c = "stop" :=
      fun h => hstop (List.mem_cons.mpr (Or.inl h.symm))
    obtain ⟨f, rfl⟩ : ∃ f, fuel = f + 1 := by
      cases fuel with
      | zero => exact absurd hfuel (by simp)
      | succ f => exact ⟨f, rfl⟩
    obtain ⟨fr, rest, rfl⟩ : ∃ fr rest, frames = fr :: rest := by
      cases frames with
      | nil => exact absurd hlen (by simp)
      | cons fr rest => exact ⟨fr, rest, rfl⟩
    have e1 : streamerRun (f + 1) st (fr :: rest) =
        ((streamerRun f (workerIter { st with q := cs ++ ["stop", "save_timelog"] } fr).1 rest).1,
         (workerIter { st with q := cs ++ ["stop", "save_timelog"] } fr).2 ++
           (streamerRun f (workerIter { st with q := cs ++ ["stop", "save_timelog"] } fr).1 rest).2.1,
         (streamerRun f (workerIter { st with q := cs ++ ["stop", "save_timelog"] } fr).1 rest).2.2) := by
      show runFrom (f + 1) { st with q := (getCmd st.q).2 } (fr :: rest) (getCmd st.q).1 = _
      rw [hq]
      show runFrom (f + 1) { st with q := cs ++ ["stop", "save_timelog"] }
        (fr :: rest) (some c) = _
      rw [runFrom, if_neg (by simp [hc])]
      rfl
    obtain ⟨hwq, hwsaves, hwl, hwe⟩ :=
      workerIter_no_stop { st with q := cs ++ ["stop", "save_timelog"] } fr
        (hfr fr (List.mem_cons_self fr rest))
    obtain ⟨hx, hs, pre, hpre, hl, he⟩ :=
      ih rest (workerIter { st with q := cs ++ ["stop", "save_timelog"] } fr).1 f
        (fun h => hstop (List.mem_cons.mpr (Or.inr h)))
        (by rw [hwq])
        (fun f' hf' => hfr f' (List.mem_cons.mpr (Or.inr hf')))
        (by simpa using hlen)
        (by simpa using hfuel)
    rw [e1]
    refine ⟨hx, ?_, (workerIter { st with q := cs ++ ["stop", "save_timelog"] } fr).2 ++ pre,
      ?_, ?_, ?_⟩
    · show (streamerRun f (workerIter { st with q := cs ++ ["stop", "save_timelog"] } fr).1 rest).1.saves
        = st.saves + 1
      rw [hs, hwsaves]
    · show (workerIter { st with q := cs ++ ["stop", "save_timelog"] } fr).2 ++
          (streamerRun f (workerIter { st with q := cs ++ ["stop", "save_timelog"] } fr).1 rest).2.1
        = _
      rw [hpre, List.append_assoc]
    · simp only [List.mem_append, not_or]
      exact ⟨hwl, hl⟩
    · simp only [List.mem_append, not_or]
      exact ⟨hwe, he⟩

/-- C10: stop_streaming with the flush flag enqueues stop strictly before
save_timelog on the FIFO control channel; the worker exits its receive loop
upon dequeuing stop and only after loop exit dequeues and executes the one
further pending command, so the timelog save happens exactly once and only
after streaming has ended. -/
theorem stop_flush_ordering :
    (∀ c : Client, is_streaming c = true →
      client_stop_streaming c true = .ok (c.q ++ ["stop", "save_timelog"])) ∧
    (∀ (cs : List String) (frames : List Frame) (st : WState) (fuel : Nat),
      "stop" ∉ cs →
      st.q = cs ++ ["stop", "save_timelog"] →
      (∀ f ∈ frames, f.hdr.nType ≠ RDA_STOP_MSG) →
      cs.length ≤ frames.length →
      cs.length ≤ fuel →
      (streamerRun fuel st frames).2.2 = RunExit.stopped ∧
      (streamerRun fuel st frames).1.saves = st.saves + 1 ∧
      ∃ pre, (streamerRun fuel st frames).2.1 = pre ++ [Ev.loopExit, Ev.execSave] ∧
        Ev.loopExit ∉ pre ∧ Ev.execSave ∉ pre) := by
  refine ⟨fun c h => ?_, fun cs frames st fuel => runAux cs frames st fuel⟩
  unfold client_stop_streaming
  simp [h]

/-- Worker state whose control queue holds exactly the stop and save_timelog
commands sent by a flushing stop_streaming call. -/
def wst0 : WState :=
  { timelog := [], written := 0, q := ["stop", "save_timelog"], clock := 0,
    saves := 0 }

/-- Witness for C10 at a concrete streaming client and worker state. -/
theorem stop_flush_ordering_witness :
    client_stop_streaming streamingClient true =
      .ok (streamingClient.q ++ ["stop", "save_timelog"]) ∧
    ((streamerRun 1 wst0 []).2.2 = RunExit.stopped ∧
     (streamerRun 1 wst0 []).1.saves = wst0.saves + 1 ∧
     ∃ pre, (streamerRun 1 wst0 []).2.1 = pre ++ [Ev.loopExit, Ev.execSave] ∧
       Ev.loopExit ∉ pre ∧ Ev.execSave ∉ pre) :=
  ⟨stop_flush_ordering.1 streamingClient rfl,
   stop_flush_ordering.2 [] [] wst0 1 (by simp) rfl (by simp) (by simp) (by simp)⟩

end RDA
